import Mathlib

/-!
Verification development for the GPflow excerpt consisting of
`gpflow/svgp.py` (the SVGP model) and `gpflow/core/parentable.py`
(the naming-tree utility).  The Python code is shallowly embedded:
pure methods become Lean functions, the process-wide naming counter
becomes explicit state passing, tensors become `Matrix (Fin m) (Fin n) ℚ`
(the TensorFlow linear-algebra primitives `cholesky`, `cholesky_solve`
and `matrix_triangular_solve` are external collaborators and are
modelled as abstract operation records), and Python exceptions become
`Except` values.
-/

/-! ### Parentable (gpflow/core/parentable.py)

A `Parentable` node holds the name of its Python class (`cls`, the value
of `self.__class__.__name__`), its stored internal name `_name`
(field `pname` here), and an optional reference to a parent node.
The class-level counter `Parentable.__index` is process-wide mutable
state; it is passed explicitly as a `ℕ` and returned updated.
`_define_name` is always invoked through `Parentable._read_index(self)`,
i.e. on the base class, so a single counter serves every subclass. -/

inductive PNode where
  | mk (cls : String) (pname : String) (parent : Option PNode) : PNode

def PNode.cls : PNode → String
  | .mk c _ _ => c

def PNode.pname : PNode → String
  | .mk _ n _ => n

def PNode.parentRef : PNode → Option PNode
  | .mk _ _ p => p

/-- `Parentable._read_index`: returns the current class counter and
increments it. -/
def readIndex (c : ℕ) : ℕ × ℕ := (c, c + 1)

/-- Python truthiness of an optional string argument (`if name:`):
`None` and the empty string are falsy. -/
def pyTruthy : Option String → Bool
  | none => false
  | some s => s ≠ ""

/-- `Parentable._define_name(name)`: keep a truthy explicit name,
otherwise generate `'{index}/{cls}'` from the process-wide counter. -/
def defineName (cls : String) (name : Option String) (c : ℕ) : String × ℕ :=
  if pyTruthy name then (name.getD "", c)
  else
    let ic := readIndex c
    (Nat.repr ic.1 ++ "/" ++ cls, ic.2)

/-- `Parentable.__init__(name)`: sets `_parent = None` and
`_name = _define_name(name)`. -/
def mkParentable (cls : String) (name : Option String) (c : ℕ) : PNode × ℕ :=
  let nc := defineName cls name c
  (.mk cls nc.1 none, nc.2)

/-- The `hidden_name` property: the stored `_name` verbatim. -/
def PNode.hidden_name (n : PNode) : String := n.pname

/-- Python `str.isdigit()` restricted to the decimal digits that the
counter actually produces. -/
def pyIsDigit (s : String) : Bool := s.length > 0 && s.data.all Char.isDigit

/-- Helper for Python `split(sep='/', maxsplit=1)`: scan for the first
slash, accumulating the characters seen so far. -/
def splitFirstAux : List Char → List Char → Option (String × String)
  | [], _ => none
  | ch :: rest, acc =>
    if ch = '/' then some (String.mk acc.reverse, String.mk rest)
    else splitFirstAux rest (ch :: acc)

/-- Python `s.split(sep='/', maxsplit=1)`: the whole string when no
slash occurs, otherwise the parts before and after the first slash. -/
def splitFirst (s : String) : List String :=
  match splitFirstAux s.data [] with
  | none => [s]
  | some (a, b) => [a, b]

/-- `_name.split(sep='/', maxsplit=1)` followed by the prefix test of the
`name` property: if the part before the first slash is all digits, the
remainder is returned, otherwise the stored name verbatim. -/
def nameAfterIndex (s : String) : String :=
  match splitFirst s with
  | [a, b] => if pyIsDigit a then b else s
  | _ => s

/-- The `name` property of a node. -/
def PNode.nameProp (n : PNode) : String := nameAfterIndex n.pname

/-- The `parent` property: the parent reference, or the node itself when
no parent is set. -/
def PNode.parentProp (n : PNode) : PNode :=
  match n.parentRef with
  | none => n
  | some p => p

/-- The `root` property: follow parent references to the top of the tree;
a node with no parent is its own root. -/
def PNode.root : PNode → PNode
  | .mk c nm none => .mk c nm none
  | .mk _ _ (some p) => PNode.root p

/-- `set_parent(parent)`: overwrite the parent reference. -/
def PNode.set_parent (n : PNode) (p : Option PNode) : PNode :=
  .mk n.cls n.pname p

/-- `_reset_name()`: when the stored name differs from the `name`
property (i.e. it carries a numeric prefix), re-assign
`_name = _define_name(None)` — a fresh auto-generated name drawn from
the counter. -/
def resetName (n : PNode) (c : ℕ) : PNode × ℕ :=
  if n.hidden_name ≠ n.nameProp then
    let nc := defineName n.cls none c
    (.mk n.cls nc.1 n.parentRef, nc.2)
  else (n, c)

/-- Creating a sequence of nodes, none with an explicit name, threading
the process-wide counter through; returns the nodes and final counter. -/
def createUnnamed : List String → ℕ → List PNode × ℕ
  | [], c0 => ([], c0)
  | cls :: rest, c0 =>
    let nc := mkParentable cls none c0
    let tail := createUnnamed rest nc.2
    (nc.1 :: tail.1, tail.2)

/-! ### SVGP (gpflow/svgp.py): tensors and external collaborators

Tensors are rational matrices.  The kernel, likelihood, mean function,
conditional predictor, the four KL routines of `kullback_leiblers`, and
the TensorFlow linear-algebra primitives are external collaborators
(imported modules / other files of the repository); they are modelled as
records of abstract operations, exactly as they are consumed by
`svgp.py`. -/

abbrev Mat (m n : ℕ) : Type := Matrix (Fin m) (Fin n) ℚ

/-- The variational covariance root `q_sqrt` as the TensorFlow graph sees
it: either the diagonal representation (an `M×L` matrix of standard
deviations) or the full representation (an `M×M×L` tensor of stacked
lower-triangular factors). -/
inductive QSqrtT (M L : ℕ) where
  | diag (s : Mat M L)
  | full (t : Fin M → Fin M → Fin L → ℚ)

/-- Kernel collaborator: covariance evaluation `K(X)` and the optional
feature-map constructor `create_feature_map_func(seed)`.  A kernel with
no feature map (the base-class method raises `NotImplementedError`, as
documented in the `linear_weights_posterior` docstring) is modelled by
`none`. -/
structure Kern (D F : ℕ) where
  K : (n : ℕ) → Mat n D → Mat n n
  create_feature_map_func : Option (ℕ → (n : ℕ) → Mat n D → Mat n F)

/-- The four KL routines of the `kullback_leiblers` module, taking
`q_mu`, `q_sqrt` and (for the non-whitened pair) a prior covariance. -/
structure KLOps (M L : ℕ) where
  gauss_kl_white_diag : Mat M L → QSqrtT M L → ℚ
  gauss_kl_white : Mat M L → QSqrtT M L → ℚ
  gauss_kl_diag : Mat M L → QSqrtT M L → Mat M M → ℚ
  gauss_kl : Mat M L → QSqrtT M L → Mat M M → ℚ

/-- The `conditionals.conditional` collaborator:
`(Xnew, Z, kern, q_mu, q_sqrt, full_cov, whiten) -> (mean, var)`. -/
structure CondOps (D F M L : ℕ) where
  conditional : (n : ℕ) → Mat n D → Mat M D → Kern D F → Mat M L →
    QSqrtT M L → Bool → Bool → Mat n L × Mat n L

/-- Likelihood collaborator: `variational_expectations(fmean, fvar, Y)`
returns per-observation expected log-likelihoods. -/
structure LikOps (L R : ℕ) where
  variational_expectations : (n : ℕ) → Mat n L → Mat n L → Mat n R → Mat n R

/-- Mean-function collaborator, callable on a batch of inputs. -/
structure MeanFn (D L : ℕ) where
  f : (n : ℕ) → Mat n D → Mat n L

/-- The TensorFlow linear-algebra primitives used by
`linear_weights_posterior`; the Bool of `matrix_triangular_solve` is its
`lower` flag. -/
structure TFLinalg where
  cholesky : (n : ℕ) → Mat n n → Mat n n
  cholesky_solve : (n k : ℕ) → Mat n n → Mat n k → Mat n k
  matrix_triangular_solve : (n k : ℕ) → Mat n n → Mat n k → Bool → Mat n k

/-- The compiled-graph view of an `SVGP` model: the attribute values that
the graph-building methods of `svgp.py` read.  `Xbatch`/`Ybatch` are the
current minibatch tensors yielded by the two `MinibatchData` views, so
`B` is the value of `tf.shape(self.X)[0]`; `num_data` retains the full
dataset size `N`. -/
structure SVGPGraph (D F M L R B : ℕ) where
  num_data : ℕ
  whiten : Bool
  q_diag : Bool
  Z : Mat M D
  q_mu : Mat M L
  q_sqrt : QSqrtT M L
  kern : Kern D F
  likelihood : LikOps L R
  mean_function : MeanFn D L
  Xbatch : Mat B D
  Ybatch : Mat B R
  random_seed_for_random_features : ℕ

variable {D F M L R B : ℕ}

/-- `SVGP.build_prior_KL`: dispatch on `(whiten, q_diag)`; the
non-whitened pair receives `kern.K(Z) + jitter * I`. -/
def SVGPGraph.build_prior_KL (kl : KLOps M L) (jitter : ℚ)
    (m : SVGPGraph D F M L R B) : ℚ :=
  if m.whiten then
    if m.q_diag then kl.gauss_kl_white_diag m.q_mu m.q_sqrt
    else kl.gauss_kl_white m.q_mu m.q_sqrt
  else
    let K := m.kern.K M m.Z + jitter • (1 : Mat M M)
    if m.q_diag then kl.gauss_kl_diag m.q_mu m.q_sqrt K
    else kl.gauss_kl m.q_mu m.q_sqrt K

/-- `SVGP.build_predict(Xnew, full_cov)`: delegate to the conditional and
add the mean function to the returned mean. -/
def SVGPGraph.build_predict (cond : CondOps D F M L) (m : SVGPGraph D F M L R B)
    (n : ℕ) (Xnew : Mat n D) (full_cov : Bool) : Mat n L × Mat n L :=
  let mv := cond.conditional n Xnew m.Z m.kern m.q_mu m.q_sqrt full_cov m.whiten
  (mv.1 + m.mean_function.f n Xnew, mv.2)

/-- `SVGP.build_likelihood()`: the minibatch-rescaled ELBO.
`scale = num_data / tf.shape(X)[0]` and the KL term is subtracted
unscaled. -/
def SVGPGraph.build_likelihood (kl : KLOps M L) (cond : CondOps D F M L)
    (jitter : ℚ) (m : SVGPGraph D F M L R B) : ℚ :=
  let KL := m.build_prior_KL kl jitter
  let fmv := m.build_predict cond B m.Xbatch false
  let var_exp := m.likelihood.variational_expectations B fmv.1 fmv.2 m.Ybatch
  let scale : ℚ := (m.num_data : ℚ) / (B : ℚ)
  (∑ i, ∑ j, var_exp i j) * scale - KL

/-- Python exceptions that `linear_weights_posterior` can surface:
the failed `assert self.num_latent == 1`, the `NotImplementedError`
from a kernel without a feature map, and the TensorFlow shape error
raised by `tf.matmul` when the squeezed diagonal `q_sqrt` is rank 1. -/
inductive PyError where
  | assertionFailed
  | notImplemented
  | tfShapeError

/-- `SVGP.linear_weights_posterior()`.  Guard order follows the source:
the `num_latent == 1` assertion, then the feature-map construction.
For the diagonal representation, `tf.squeeze(self.q_sqrt)` is a rank-1
tensor and the subsequent `tf.matmul` raises a shape error (modelled as
`tfShapeError`); for the full representation with `num_latent == 1` the
squeeze selects the single `M×M` slice. -/
def SVGPGraph.linear_weights_posterior (ops : TFLinalg) (jitter : ℚ)
    (m : SVGPGraph D F M L R B) : Except PyError (Mat F L × Mat F F × Bool) :=
  if hL : L = 1 then
    match m.kern.create_feature_map_func with
    | none => .error .notImplemented
    | some feat_map =>
      let feats : Mat M F := feat_map m.random_seed_for_random_features M m.Z
      let kernel_at_z_true := m.kern.K M m.Z
      let chol_kzz_true := ops.cholesky M (kernel_at_z_true + jitter • (1 : Mat M M))
      let kernel_at_z_approx := feats * feats.transpose
      let chol_kzz_approx := ops.cholesky M (kernel_at_z_approx + jitter • (1 : Mat M M))
      let u := if m.whiten then chol_kzz_true * m.q_mu else m.q_mu
      let Kzzinv_u := ops.cholesky_solve M L chol_kzz_approx u
      let mean := feats.transpose * Kzzinv_u
      match m.q_sqrt with
      | .diag _ => .error .tfShapeError
      | .full t =>
        let sq : Mat M M := Matrix.of fun i j => t i j ⟨0, hL.symm ▸ Nat.zero_lt_one⟩
        let LiPhi := ops.matrix_triangular_solve M F chol_kzz_approx feats true
        let Rfac := if m.whiten then chol_kzz_true * sq else sq
        let LitLiPhi := ops.matrix_triangular_solve M F chol_kzz_approx.transpose LiPhi false
        let QsrttLiPhi := Rfac.transpose * LitLiPhi
        let term1 := QsrttLiPhi.transpose * QsrttLiPhi
        let term2 := -(LiPhi.transpose * LiPhi)
        let variance := term1 + term2 + (1 : Mat F F)
        .ok (mean, variance, true)
  else .error .assertionFailed

/-! ### SVGP.__init__ (construction, gpflow/svgp.py lines 44-83)

The constructor is embedded as a function building the initial model
state.  The source contains no validation of the argument shapes, so the
`Except` wrapper below can only ever return `.ok`; the column counts of
`X` and `Z` are deliberately distinct type parameters (`D` vs `Dz`) so
that mismatched construction is expressible. -/

/-- The constrained-parameter transforms attached at construction:
`transforms.positive` and `transforms.LowerTriangular(M, num_latent)`. -/
inductive TransformT where
  | positive
  | lowerTri (m lat : ℕ)

/-- A `Param` wrapper: a value plus an optional constraint transform
(`Param(Z)` uses the default identity transform, modelled as `none`). -/
structure ParamT (α : Type) where
  value : α
  transform : Option TransformT

/-- A numpy array of rank 3 with explicit runtime shape, used for the
full `q_sqrt` initial value so that axis order is observable. -/
structure Tensor3 where
  d0 : ℕ
  d1 : ℕ
  d2 : ℕ
  entries : Fin d0 → Fin d1 → Fin d2 → ℚ

/-- `np.array([np.eye(M) for _ in range(L)])`: shape `(L, M, M)`, each
leading slice the identity. -/
def npStackEye (lat m : ℕ) : Tensor3 :=
  ⟨lat, m, m, fun _ i j => if (i : ℕ) = (j : ℕ) then 1 else 0⟩

/-- `.swapaxes(0, 2)`: exchange the first and last axes. -/
def Tensor3.swapaxes02 (t : Tensor3) : Tensor3 :=
  ⟨t.d2, t.d1, t.d0, fun a b c => t.entries c b a⟩

/-- A `MinibatchData` view: the wrapped full data array, the configured
minibatch size, and the seed of its `np.random.RandomState`. -/
structure MinibatchDataT (n d : ℕ) where
  data : Mat n d
  minibatch_size : ℕ
  seed : ℕ

/-- The `q_sqrt` parameter: the two mutually exclusive initial
representations created by `__init__`. -/
inductive QSqrtParam (M lat : ℕ) where
  | diag (p : ParamT (Mat M lat))
  | full (p : ParamT Tensor3)

/-- The attribute state of a freshly constructed `SVGP` object. -/
structure SVGPState (N M D Dz R : ℕ) where
  num_data : ℕ
  X : MinibatchDataT N D
  Y : MinibatchDataT N R
  q_diag : Bool
  whiten : Bool
  Z : ParamT (Mat M Dz)
  num_latent : ℕ
  num_inducing : ℕ
  q_mu : ParamT (Matrix (Fin M) (Fin num_latent) ℚ)
  q_sqrt : QSqrtParam M num_latent
  random_seed_for_random_features : ℕ

/-- The single error category of the spec's construction contract. -/
inductive ConfigError where
  | configurationError

/-- Python `num_latent or Y.shape[1]`: `None` and `0` are falsy. -/
def pyOrNat (x : Option ℕ) (dflt : ℕ) : ℕ :=
  match x with
  | none => dflt
  | some k => if k = 0 then dflt else k

/-- The attribute assignments performed by `SVGP.__init__`, in source
order: default the minibatch size to `X.shape[0]`, record `num_data`,
wrap `X`/`Y` in `MinibatchData` views seeded with `RandomState(0)`,
store the flags and `Param(Z)`, default `num_latent` to `Y.shape[1]`,
and initialize the variational parameters. -/
def svgp_make (N M D Dz R : ℕ) (X : Mat N D) (Y : Mat N R) (Z : Mat M Dz)
    (num_latent : Option ℕ) (q_diag whiten : Bool) (minibatch_size : Option ℕ)
    (rseed : ℕ) : SVGPState N M D Dz R :=
  let mbs := minibatch_size.getD N
  let lat := pyOrNat num_latent R
  { num_data := N
  , X := ⟨X, mbs, 0⟩
  , Y := ⟨Y, mbs, 0⟩
  , q_diag := q_diag
  , whiten := whiten
  , Z := ⟨Z, none⟩
  , num_latent := lat
  , num_inducing := M
  , q_mu := ⟨Matrix.of fun _ _ => 0, none⟩
  , q_sqrt :=
      if q_diag then .diag ⟨Matrix.of fun _ _ => 1, some .positive⟩
      else .full ⟨(npStackEye lat M).swapaxes02, some (.lowerTri M lat)⟩
  , random_seed_for_random_features := rseed }

/-- `SVGP.__init__` with an error channel for the configuration failure
the spec postulates.  The source performs no shape validation, so the
body is unconditionally `.ok`. -/
def svgp_init (N M D Dz R : ℕ) (X : Mat N D) (Y : Mat N R) (Z : Mat M Dz)
    (num_latent : Option ℕ) (q_diag whiten : Bool) (minibatch_size : Option ℕ)
    (rseed : ℕ) : Except ConfigError (SVGPState N M D Dz R) :=
  .ok (svgp_make N M D Dz R X Y Z num_latent q_diag whiten minibatch_size rseed)

/-- Whether an `Except` value is a success. -/
def exceptOk {ε α : Type _} : Except ε α → Bool
  | .ok _ => true
  | .error _ => false

/-- The runtime shape of the full `q_sqrt` initial tensor (`(0,0,0)` for
the diagonal representation, which stores a matrix, not a rank-3
tensor). -/
def qSqrtShape3 {M lat : ℕ} : QSqrtParam M lat → ℕ × ℕ × ℕ
  | .full p => (p.value.d0, p.value.d1, p.value.d2)
  | .diag _ => (0, 0, 0)

/-! ### Concrete instances used by the witnesses and counterexamples -/

def wMat1 : Mat 1 1 := Matrix.of fun _ _ => 1

def wFeatMap : ℕ → (n : ℕ) → Mat n 1 → Mat n 1 := fun _ _ _ => Matrix.of fun _ _ => 1

def wKern : Kern 1 1 := ⟨fun _ _ => Matrix.of fun _ _ => 1, some wFeatMap⟩

def wKernNoFM : Kern 1 1 := ⟨fun _ _ => Matrix.of fun _ _ => 1, none⟩

def wKL : KLOps 1 1 := ⟨fun _ _ => 1, fun _ _ => 2, fun _ _ _ => 3, fun _ _ _ => 4⟩

def wCond : CondOps 1 1 1 1 := ⟨fun _ X _ _ _ _ _ _ => (X, X)⟩

def wLik : LikOps 1 1 := ⟨fun _ fmean _ _ => fmean⟩

def wMean : MeanFn 1 1 := ⟨fun _ X => X⟩

def wOps : TFLinalg :=
  ⟨fun _ A => A, fun _ _ _ bm => bm, fun _ _ _ bm _ => bm⟩

def wModel : SVGPGraph 1 1 1 1 1 1 :=
  { num_data := 1, whiten := true, q_diag := true, Z := wMat1, q_mu := wMat1
  , q_sqrt := .diag wMat1, kern := wKern, likelihood := wLik
  , mean_function := wMean, Xbatch := wMat1, Ybatch := wMat1
  , random_seed_for_random_features := 0 }

def wModelNoFM : SVGPGraph 1 1 1 1 1 1 := { wModel with kern := wKernNoFM }

def wX2 : Mat 2 1 := Matrix.of fun _ _ => 0

def wZ03 : Mat 0 3 := Matrix.of fun i _ => Fin.elim0 i

def wZ21 : Mat 2 1 := Matrix.of fun _ _ => 0

/-! ### Theorems -/

/-- Claim C1: `build_likelihood` returns
`sum(variational_expectations(fmean, fvar, Y_batch)) * (num_data / batch_size) - KL`
where `(fmean, fvar)` come from `build_predict(X_batch, full_cov=false)`
and the KL term is not multiplied by the rescale factor; the rescale
factor equals `1` when the batch size equals `num_data`, and an omitted
`minibatch_size` defaults to `num_data` at construction. -/
theorem svgp_build_likelihood_minibatch_elbo
    (kl : KLOps M L) (cond : CondOps D F M L) (jitter : ℚ)
    (m : SVGPGraph D F M L R B) :
    (m.build_likelihood kl cond jitter =
      (∑ i, ∑ j, m.likelihood.variational_expectations B
          (m.build_predict cond B m.Xbatch false).1
          (m.build_predict cond B m.Xbatch false).2 m.Ybatch i j)
        * ((m.num_data : ℚ) / (B : ℚ)) - m.build_prior_KL kl jitter)
    ∧ (B = m.num_data → 0 < m.num_data → ((m.num_data : ℚ) / (B : ℚ)) = 1)
    ∧ (∀ (N Dz R2 : ℕ) (X : Mat N D) (Y : Mat N R2) (Z : Mat M Dz)
        (nl : Option ℕ) (qd wh : Bool) (rs : ℕ),
        (svgp_make N M D Dz R2 X Y Z nl qd wh none rs).X.minibatch_size
          = (svgp_make N M D Dz R2 X Y Z nl qd wh none rs).num_data) := by
  refine ⟨rfl, ?_, ?_⟩
  · intro hB hpos
    have hq : ((B : ℕ) : ℚ) = ((m.num_data : ℕ) : ℚ) := by exact_mod_cast hB
    rw [hq]
    exact div_self (by exact_mod_cast hpos.ne')
  · intro N Dz R2 X Y Z nl qd wh rs
    rfl

/-- Claim C1 witness: at the concrete full-batch model `wModel`
(`num_data = 1`, batch size `1`) the rescale factor is `1`. -/
theorem svgp_build_likelihood_minibatch_elbo_witness :
    ((wModel.num_data : ℚ) / ((1 : ℕ) : ℚ)) = 1 :=
  (svgp_build_likelihood_minibatch_elbo wKL wCond 0 wModel).2.1 rfl (by decide)

/-- Claim C3 counterexample: constructing an SVGP with a zero-row `Z`
whose column count (3) differs from `X`'s column count (1) succeeds —
no configuration error is raised. -/
theorem svgp_init_accepts_degenerate_cx :
    exceptOk (svgp_init 2 0 1 3 1 wX2 wX2 wZ03 none false true none 27184) = true := rfl

/-- Claim C3 amended: `SVGP.__init__` performs no validation of `Z`'s
row count or of the `X`/`Z` column dimensions; construction always
succeeds, recording `num_inducing = M` (possibly `0`) and
`num_data = N`. -/
theorem svgp_init_no_validation (N M D Dz R : ℕ) (X : Mat N D) (Y : Mat N R)
    (Z : Mat M Dz) (nl : Option ℕ) (qd wh : Bool) (mbs : Option ℕ) (rs : ℕ) :
    svgp_init N M D Dz R X Y Z nl qd wh mbs rs
        = .ok (svgp_make N M D Dz R X Y Z nl qd wh mbs rs)
    ∧ (svgp_make N M D Dz R X Y Z nl qd wh mbs rs).num_inducing = M
    ∧ (svgp_make N M D Dz R X Y Z nl qd wh mbs rs).num_data = N :=
  ⟨rfl, rfl, rfl⟩

/-- Claim C4 counterexample: with `M = 2` inducing points and `L = 1`
latent process, the full `q_sqrt` is initialized as a tensor of shape
`(2, 2, 1) = M×M×L`, not the claimed `L×M×M = (1, 2, 2)`. -/
theorem svgp_q_sqrt_init_shape_cx :
    qSqrtShape3 (svgp_make 1 2 1 1 1 wMat1 wMat1 wZ21 none false true none 27184).q_sqrt
        = (2, 2, 1)
    ∧ ((2, 2, 1) : ℕ × ℕ × ℕ) ≠ (1, 2, 2) :=
  ⟨rfl, by decide⟩

/-- Claim C4 amended: `q_mu` initializes to the `M×L` zero matrix (no
transform); with `q_diag` true, `q_sqrt` is the all-ones `M×L` matrix
under `transforms.positive`; with `q_diag` false it is the rank-3 tensor
of shape `M×M×L` (not `L×M×M`) whose `[:, :, l]` slices are `M×M`
identity matrices, under `transforms.LowerTriangular(M, L)`. -/
theorem svgp_init_variational_params (N M D Dz R : ℕ) (X : Mat N D) (Y : Mat N R)
    (Z : Mat M Dz) (nl : Option ℕ) (qd wh : Bool) (mbs : Option ℕ) (rs : ℕ) :
    ((svgp_make N M D Dz R X Y Z nl qd wh mbs rs).q_mu
        = ⟨Matrix.of fun _ _ => 0, none⟩)
    ∧ (qd = true → (svgp_make N M D Dz R X Y Z nl qd wh mbs rs).q_sqrt
        = .diag ⟨Matrix.of fun _ _ => 1, some .positive⟩)
    ∧ (qd = false → (svgp_make N M D Dz R X Y Z nl qd wh mbs rs).q_sqrt
        = .full ⟨(npStackEye (pyOrNat nl R) M).swapaxes02
                , some (.lowerTri M (pyOrNat nl R))⟩)
    ∧ (((npStackEye (pyOrNat nl R) M).swapaxes02).d0 = M
        ∧ ((npStackEye (pyOrNat nl R) M).swapaxes02).d1 = M
        ∧ ((npStackEye (pyOrNat nl R) M).swapaxes02).d2 = pyOrNat nl R)
    ∧ (∀ (a b : Fin M) (c : Fin (pyOrNat nl R)),
        ((npStackEye (pyOrNat nl R) M).swapaxes02).entries a b c
          = if (a : ℕ) = (b : ℕ) then 1 else 0) := by
  refine ⟨rfl, ?_, ?_, ⟨rfl, rfl, rfl⟩, ?_⟩
  · intro h; subst h; rfl
  · intro h; subst h; rfl
  · intro a b c
    simp only [npStackEye, Tensor3.swapaxes02]
    rcases eq_or_ne (a : ℕ) (b : ℕ) with h | h
    · simp [h]
    · simp [h, Ne.symm h]

/-- Claim C4 witness: the amended full-case initialization at the
concrete model with `M = 2`, `L = 1`. -/
theorem svgp_init_variational_params_witness :
    (svgp_make 1 2 1 1 1 wMat1 wMat1 wZ21 none false true none 27184).q_sqrt
      = .full ⟨(npStackEye (pyOrNat none 1) 2).swapaxes02
              , some (.lowerTri 2 (pyOrNat none 1))⟩ :=
  (svgp_init_variational_params 1 2 1 1 1 wMat1 wMat1 wZ21 none false true
    none 27184).2.2.1 rfl

/-- Claim C5: `build_prior_KL` selects exactly one of the four KL
routines according to `(whiten, q_diag)`; both non-whitened routines
receive `kern.K(Z) + jitter · I_M` (jitter already added on the prior
covariance handed to the routine that factorizes it), and the whitened
result does not depend on the kernel at all. -/
theorem svgp_build_prior_KL_four_cases (kl : KLOps M L) (jitter : ℚ)
    (m : SVGPGraph D F M L R B) :
    (m.whiten = true → m.q_diag = true →
      m.build_prior_KL kl jitter = kl.gauss_kl_white_diag m.q_mu m.q_sqrt)
    ∧ (m.whiten = true → m.q_diag = false →
      m.build_prior_KL kl jitter = kl.gauss_kl_white m.q_mu m.q_sqrt)
    ∧ (m.whiten = false → m.q_diag = true →
      m.build_prior_KL kl jitter
        = kl.gauss_kl_diag m.q_mu m.q_sqrt (m.kern.K M m.Z + jitter • (1 : Mat M M)))
    ∧ (m.whiten = false → m.q_diag = false →
      m.build_prior_KL kl jitter
        = kl.gauss_kl m.q_mu m.q_sqrt (m.kern.K M m.Z + jitter • (1 : Mat M M)))
    ∧ (m.whiten = true → ∀ k1 k2 : Kern D F,
      ({ m with kern := k1 } : SVGPGraph D F M L R B).build_prior_KL kl jitter
        = ({ m with kern := k2 } : SVGPGraph D F M L R B).build_prior_KL kl jitter) := by
  refine ⟨?_, ?_, ?_, ?_, ?_⟩
  · intro h1 h2; simp [SVGPGraph.build_prior_KL, h1, h2]
  · intro h1 h2; simp [SVGPGraph.build_prior_KL, h1, h2]
  · intro h1 h2; simp [SVGPGraph.build_prior_KL, h1, h2]
  · intro h1 h2; simp [SVGPGraph.build_prior_KL, h1, h2]
  · intro h1 k1 k2; simp [SVGPGraph.build_prior_KL, h1]

/-- Claim C5 witness: the whitened-diagonal model `wModel` takes the
`gauss_kl_white_diag` branch. -/
theorem svgp_build_prior_KL_four_cases_witness :
    wModel.build_prior_KL wKL 0 = wKL.gauss_kl_white_diag wModel.q_mu wModel.q_sqrt :=
  (svgp_build_prior_KL_four_cases wKL 0 wModel).1 rfl rfl

/-- Claim C7: `build_predict(Xnew, full_cov)` returns the conditional
mean with the mean function's value at `Xnew` added, and the conditional
variance unchanged. -/
theorem svgp_build_predict_delegates (cond : CondOps D F M L)
    (m : SVGPGraph D F M L R B) (n : ℕ) (Xnew : Mat n D) (full_cov : Bool) :
    m.build_predict cond n Xnew full_cov
      = ((cond.conditional n Xnew m.Z m.kern m.q_mu m.q_sqrt full_cov m.whiten).1
          + m.mean_function.f n Xnew,
         (cond.conditional n Xnew m.Z m.kern m.q_mu m.q_sqrt full_cov m.whiten).2) := rfl

/-- Claim C6: `linear_weights_posterior` fails the `num_latent == 1`
assertion whenever `L ≠ 1`, and raises `NotImplementedError` when
`num_latent = 1` but the kernel exposes no feature-map constructor; in
both cases an error is surfaced, never an `.ok` result. -/
theorem svgp_linear_weights_posterior_error_paths (ops : TFLinalg) (jitter : ℚ)
    (m : SVGPGraph D F M L R B) :
    (L ≠ 1 → m.linear_weights_posterior ops jitter = .error .assertionFailed)
    ∧ (L = 1 → m.kern.create_feature_map_func = none →
        m.linear_weights_posterior ops jitter = .error .notImplemented) := by
  constructor
  · intro h
    simp [SVGPGraph.linear_weights_posterior, h]
  · intro h hfm
    subst h
    simp [SVGPGraph.linear_weights_posterior, hfm]

/-- Claim C6 witness: the concrete model whose kernel lacks a feature
map raises `NotImplementedError`. -/
theorem svgp_linear_weights_posterior_error_paths_witness :
    wModelNoFM.linear_weights_posterior wOps 0 = .error .notImplemented :=
  (svgp_linear_weights_posterior_error_paths wOps 0 wModelNoFM).2 rfl rfl

/-- Claim C8 counterexample: resetting the auto-named node `0/Param`
(with the counter at 1) stores `1/Param`, which still carries a numeric
prefix — `_reset_name` does not produce an un-prefixed stored name. -/
theorem reset_name_not_unprefixed_cx :
    (resetName (mkParentable "Param" none 0).1 1).1.pname = "1/Param"
    ∧ nameAfterIndex "1/Param" ≠ "1/Param" := by
  constructor
  · decide
  · decide

/-- Claim C8 amended: on a node whose stored name carries a numeric
prefix (`hidden_name ≠ name`), `_reset_name` re-assigns a fresh
auto-generated, again numeric-prefixed name `{counter}/{class}` (not an
un-prefixed form) and advances the counter; attaching a node under a
parent changes neither name property; and on any stored name of the
form `digits/rest` the `name` property yields `rest` while
`hidden_name` returns the stored prefixed form. -/
theorem reset_name_reassigns_auto (n : PNode) (c : ℕ)
    (h : n.hidden_name ≠ n.nameProp) :
    resetName n c = (.mk n.cls (Nat.repr c ++ "/" ++ n.cls) n.parentRef, c + 1)
    ∧ (∀ p : PNode, (n.set_parent (some p)).nameProp = n.nameProp
        ∧ (n.set_parent (some p)).hidden_name = n.pname)
    ∧ (∀ (s d rest : String),
        splitFirst s = [d, rest] → pyIsDigit d = true →
        nameAfterIndex s = rest ∧ (PNode.mk "" s none).hidden_name = s) := by
  refine ⟨?_, ?_, ?_⟩
  · simp only [resetName, if_pos h]
    rfl
  · intro p
    exact ⟨rfl, rfl⟩
  · intro s d rest hs hd
    refine ⟨?_, rfl⟩
    simp [nameAfterIndex, hs, hd]

/-- Claim C8 witness: resetting the concrete node `0/Param` at counter 1
yields the node stored as `1/Param` with the counter at 2. -/
theorem reset_name_reassigns_auto_witness :
    resetName (mkParentable "Param" none 0).1 1 = (.mk "Param" "1/Param" none, 2) :=
  (reset_name_reassigns_auto (mkParentable "Param" none 0).1 1 (by decide)).1

/-- Helper: `createUnnamed` produces one node per requested class. -/
theorem createUnnamed_length (clss : List String) (c0 : ℕ) :
    (createUnnamed clss c0).1.length = clss.length := by
  induction clss generalizing c0 with
  | nil => rfl
  | cons cls rest ih => simp [createUnnamed, ih]

/-- Helper: the final counter after creating the chain. -/
theorem createUnnamed_counter (clss : List String) (c0 : ℕ) :
    (createUnnamed clss c0).2 = c0 + clss.length := by
  induction clss generalizing c0 with
  | nil => rfl
  | cons cls rest ih =>
    simp [createUnnamed, mkParentable, defineName, readIndex, pyTruthy, ih]
    omega

/-- Helper: the `i`-th node of the unnamed chain started at counter `c0`
is of class `clss.getD i` and stored as `{c0+i}/{class}` with no
parent. -/
theorem createUnnamed_getD (clss : List String) (c0 i : ℕ) (h : i < clss.length)
    (dn : PNode) (ds : String) :
    (createUnnamed clss c0).1.getD i dn
      = .mk (clss.getD i ds) (Nat.repr (c0 + i) ++ "/" ++ clss.getD i ds) none := by
  induction clss generalizing c0 i with
  | nil => exact absurd h (Nat.not_lt_zero i)
  | cons cls rest ih =>
    cases i with
    | zero => rfl
    | succ j =>
      have hj : j < rest.length := Nat.lt_of_succ_lt_succ h
      have hrec := ih (c0 + 1) j hj
      have harith : c0 + 1 + j = c0 + (j + 1) := by omega
      rw [harith] at hrec
      simpa [createUnnamed] using hrec

/-- Claim C9: unnamed nodes, whatever their class strings, draw their
numeric prefixes from the single process-wide counter: the `i`-th node
created from counter `c0` is named `{c0+i}/{class}`, the prefixes grow
strictly in creation order and are never repeated, and the counter
advances exactly once per node. -/
theorem parentable_auto_indices_strictly_increasing
    (clss : List String) (c0 i j : ℕ)
    (hi : i < clss.length) (hj : j < clss.length) (hij : i < j) :
    ((createUnnamed clss c0).1.getD i (.mk "" "" none)).pname
        = Nat.repr (c0 + i) ++ "/" ++ clss.getD i ""
    ∧ ((createUnnamed clss c0).1.getD j (.mk "" "" none)).pname
        = Nat.repr (c0 + j) ++ "/" ++ clss.getD j ""
    ∧ c0 + i < c0 + j ∧ c0 + i ≠ c0 + j
    ∧ (createUnnamed clss c0).2 = c0 + clss.length := by
  refine ⟨?_, ?_, by omega, by omega, createUnnamed_counter clss c0⟩
  · rw [createUnnamed_getD clss c0 i hi (.mk "" "" none) ""]
    rfl
  · rw [createUnnamed_getD clss c0 j hj (.mk "" "" none) ""]
    rfl

/-- Claim C9 witness: three unnamed nodes of three different classes
created from counter 0 receive prefixes 0, 1, 2. -/
theorem parentable_auto_indices_strictly_increasing_witness :
    ((createUnnamed ["Param", "SVGP", "Parentable"] 0).1.getD 0 (.mk "" "" none)).pname
        = Nat.repr (0 + 0) ++ "/" ++ (["Param", "SVGP", "Parentable"].getD 0 "")
    ∧ ((createUnnamed ["Param", "SVGP", "Parentable"] 0).1.getD 2 (.mk "" "" none)).pname
        = Nat.repr (0 + 2) ++ "/" ++ (["Param", "SVGP", "Parentable"].getD 2 "")
    ∧ 0 + 0 < 0 + 2 ∧ 0 + 0 ≠ 0 + 2
    ∧ (createUnnamed ["Param", "SVGP", "Parentable"] 0).2 = 0 + 3 :=
  parentable_auto_indices_strictly_increasing ["Param", "SVGP", "Parentable"]
    0 0 2 (by decide) (by decide) (by decide)

/-- Claim C10: a node with no parent set returns itself from both the
`parent` and the `root` property — the public `parent` accessor never
yields an absent value. -/
theorem parentable_parent_defaults_to_self (n : PNode) (h : n.parentRef = none) :
    n.parentProp = n ∧ n.root = n := by
  cases n with
  | mk c nm p =>
    simp only [PNode.parentRef] at h
    subst h
    exact ⟨rfl, rfl⟩

/-- Claim C10 witness: a concrete parentless node is its own `parent`
and `root`. -/
theorem parentable_parent_defaults_to_self_witness :
    (PNode.mk "SVGP" "3/SVGP" none).parentProp = PNode.mk "SVGP" "3/SVGP" none
    ∧ (PNode.mk "SVGP" "3/SVGP" none).root = PNode.mk "SVGP" "3/SVGP" none :=
  parentable_parent_defaults_to_self (PNode.mk "SVGP" "3/SVGP" none) rfl
